import Mathlib

/-!
Verification of the automated ticket triage pipeline of the Resolvia
helpdesk application (backend/services/aiService.js together with the
mongoose models it depends on).

The JavaScript source is shallowly embedded:
* JS numbers are modelled as rationals (ℚ), i.e. with exact arithmetic;
* thrown exceptions / rejected promises are modelled with `Except String`;
* the mongoose collections (articles, agent suggestions, audit log) are an
  explicit `Db` state threaded through the orchestrator;
* the MongoDB full-text relevance match is an abstract predicate
  `tmatch : Article → Bool` (a collaborator capability, not pipeline
  logic); the pipeline only composes filters, caps and the fallback;
* runtime failures of external collaborators (DB driver errors and the
  like) are injected through `Faults` oracles, one per call site that can
  reject in the source.

The pipeline runs in stub mode (`STUB_MODE === 'true'`, the default
configuration), in which `classifyCategory` and `generateDraftReply` are
the deterministic heuristic stubs from the source.
-/

/-- Ticket categories, the closed enumeration from the mongoose schemas. -/
inductive Category
  | billing
  | tech
  | shipping
  | other
deriving DecidableEq, Repr

/-- Rendering used when the category is interpolated into a reply string. -/
def Category.toStr : Category → String
  | .billing => "billing"
  | .tech => "tech"
  | .shipping => "shipping"
  | .other => "other"

/-- Article publication status (`status` enum of the Article schema). -/
inductive AStatus
  | draft
  | published
deriving DecidableEq, Repr

/-- The part of a Ticket document the pipeline reads. -/
structure Ticket where
  id : Nat
  title : String
  description : String
deriving DecidableEq, Repr

/-- The part of an Article document the pipeline reads. -/
structure Article where
  id : Nat
  title : String
  body : String
  category : Category
  status : AStatus
deriving DecidableEq, Repr

/-- Result of the category classifier (`{category, confidence, reasoning}`). -/
structure CatResult where
  category : Category
  confidence : ℚ
  reasoning : String
deriving DecidableEq, Repr

/-- Result of the reply drafter (`{reply, tokensUsed}`). -/
structure DraftResult where
  reply : String
  tokensUsed : Nat
deriving DecidableEq, Repr

/-- JS `text.toLowerCase()`, applied character by character (the
keywords and tickets in play are ASCII). -/
def strToLower (s : String) : String :=
  String.mk (s.toList.map Char.toLower)

/-- JS `haystack.includes(needle)` on the underlying character lists:
`charsContains pat l` is true iff `pat` occurs as a contiguous sublist
of `l`. -/
def charsContains (pat : List Char) : List Char → Bool
  | [] => pat.isEmpty
  | c :: cs => pat.isPrefixOf (c :: cs) || charsContains pat cs

/-- JS `text.includes(word)`: substring containment. -/
def strIncludes (text word : String) : Bool :=
  charsContains word.toList text.toList

/-- One category entry of the `keywords` object in `stubClassifyCategory`:
`words.reduce((count, word) => count + (text.includes(word) ? 1 : 0), 0)`. -/
def keywordScore (text : String) (words : List String) : Nat :=
  words.foldl (fun count word => count + (if strIncludes text word then 1 else 0)) 0

/-- The billing entry of the `keywords` object in `stubClassifyCategory`. -/
def billingKeywords : List String :=
  ["bill", "invoice", "payment", "charge", "refund", "subscription", "price", "cost"]

/-- The tech entry of the `keywords` object in `stubClassifyCategory`. -/
def techKeywords : List String :=
  ["bug", "error", "crash", "not working", "broken", "issue", "problem", "technical"]

/-- The shipping entry of the `keywords` object in `stubClassifyCategory`. -/
def shippingKeywords : List String :=
  ["delivery", "shipping", "package", "tracking", "shipment", "order", "received"]

/-- The `keywords` object of `stubClassifyCategory`, in JS insertion
order (billing, tech, shipping). -/
def keywordTable : List (Category × List String) :=
  [ (Category.billing, billingKeywords),
    (Category.tech, techKeywords),
    (Category.shipping, shippingKeywords) ]

/-- The case-folded combined text `${ticket.title} ${ticket.description}`
the classifier scores. -/
def classifierText (ticket : Ticket) : String :=
  strToLower (ticket.title ++ " " ++ ticket.description)

/-- `stubClassifyCategory(ticket)`: lower-case the concatenation
`${ticket.title} ${ticket.description}`, score each category by keyword
occurrence count, keep the strictly best one (the loop starts from
`('other', 0)` and replaces the best only on `score > bestScore`). -/
def stubClassifyCategory (ticket : Ticket) : CatResult :=
  let text := classifierText ticket
  let best := keywordTable.foldl
    (fun best p =>
      let score := keywordScore text p.2
      if score > best.2 then (p.1, score) else best)
    (Category.other, 0)
  { category := best.1
    confidence := if best.2 > 0 then 8/10 else 1/2
    reasoning :=
      if best.2 > 0 then "Keywords found: " ++ toString best.2
      else "No specific keywords found" }

/-- `stubGenerateDraftReply(ticket, articles, categoryResult)`: fixed
acknowledgment, then either the numbered list of article titles or the
generic category message, then the fixed sign-off. -/
def stubGenerateDraftReply (ticket : Ticket) (articles : List Article)
    (categoryResult : CatResult) : DraftResult :=
  let reply := "Thank you for contacting us regarding \"" ++ ticket.title ++ "\"."
  let reply :=
    if articles.length > 0 then
      let reply := reply ++
        "\n\nBased on your query, I found some relevant information that might help:\n\n"
      let reply := articles.enum.foldl
        (fun r p => r ++ toString (p.1 + 1) ++ ". " ++ p.2.title ++ "\n") reply
      reply ++
        "\nPlease review these resources. If they don\x27t fully address your concern, our team will be happy to assist you further."
    else
      reply ++
        "\n\nI understand you need help with this " ++ categoryResult.category.toStr ++
        " issue. Our team will review your request and get back to you shortly."
  let reply := reply ++ "\n\nBest regards,\nResolvia Support Team"
  { reply := reply, tokensUsed := 0 }

/-- `calculateOverallConfidence(categoryResult, draftResult, articles)`:
40% category confidence, 30% article yield capped at 3 articles, 30%
reply length capped at 500 characters, clamped to at most 1. -/
def calculateOverallConfidence (categoryResult : CatResult)
    (draftResult : DraftResult) (articles : List Article) : ℚ :=
  let confidence := categoryResult.confidence * (4/10)
  let articleScore := min ((articles.length : ℚ) / 3) 1 * (3/10)
  let confidence := confidence + articleScore
  let replyLength := draftResult.reply.length
  let replyScore := min ((replyLength : ℚ) / 500) 1 * (3/10)
  let confidence := confidence + replyScore
  min confidence 1

/-- Audit actions emitted by the triage pipeline (a subset of the
`action` enum of the AuditLog schema). -/
inductive AuditAction
  | category_predicted
  | articles_retrieved
  | reply_drafted
  | auto_closed
  | triage_failed
deriving DecidableEq, Repr

/-- One AuditLog document as written by `AuditLog.logAction`.  The
`meta` object of the source is modelled field by field; only the meta
entries some claim inspects are kept (ticket title, category, article
count, confidence, auto-close flag, error message). -/
structure AuditEvent where
  ticketId : Nat
  traceId : Nat
  action : AuditAction
  description : String
  metaTicketTitle : Option String := none
  metaCategory : Option Category := none
  metaArticlesFound : Option Nat := none
  metaConfidence : Option ℚ := none
  metaAutoClosed : Option Bool := none
  metaError : Option String := none
deriving DecidableEq, Repr

/-- One AgentSuggestion document, restricted to the fields the pipeline
writes (the wall-clock `processingTime` of `modelInfo` is abstracted
away; `model` keeps the engine name). -/
structure Suggestion where
  ticketId : Nat
  traceId : Nat
  predictedCategory : Category
  categoryConfidence : ℚ
  articleIds : List Nat
  draftReply : String
  confidence : ℚ
  autoClosed : Bool
  model : String
deriving DecidableEq, Repr

/-- The singleton Config document, restricted to the two fields the
pipeline reads. -/
structure Config where
  autoCloseEnabled : Bool
  confidenceThreshold : ℚ
deriving DecidableEq, Repr

/-- The persistent state the pipeline touches: the article store
(read-only), the agent-suggestion collection and the append-only audit
log. -/
structure Db where
  articles : List Article
  suggestions : List Suggestion
  audit : List AuditEvent
deriving Repr

/-- Failure oracles: each field stands for the runtime exception (if
any) thrown by the corresponding awaited collaborator call in the
source — classification, the retrieval inside the `try` block, draft
generation, a non-duplicate DB error on `AgentSuggestion.create`, and
the same two DB operations on the `getStubResult` fallback path.
`none` means the call behaves normally. -/
structure Faults where
  classify : Option String := none
  retrieve : Option String := none
  draft : Option String := none
  createDb : Option String := none
  stubRetrieve : Option String := none
  stubCreateDb : Option String := none
deriving Repr

/-- A fault-free oracle assignment (all collaborator calls succeed). -/
def Faults.clean : Faults := {}

/-- `AuditLog.logAction`: append one document to the audit collection. -/
def logAction (db : Db) (e : AuditEvent) : Db :=
  { db with audit := db.audit ++ [e] }

/-- The start-of-triage audit document `processTicket` logs first. -/
def startEvent (ticket : Ticket) (traceId : Nat) : AuditEvent :=
  { ticketId := ticket.id, traceId := traceId,
    action := AuditAction.category_predicted,
    description := "Starting AI triage process",
    metaTicketTitle := some ticket.title }

/-- The audit document `retrieveRelevantArticles` logs. -/
def retrievedEvent (ticket : Ticket) (traceId : Nat) (category : Category)
    (articles : List Article) : AuditEvent :=
  { ticketId := ticket.id, traceId := traceId,
    action := AuditAction.articles_retrieved,
    description := "Retrieved " ++ toString articles.length ++ " relevant articles",
    metaCategory := some category,
    metaArticlesFound := some articles.length }

/-- The audit document logged when a run auto-closes. -/
def autoClosedEvent (ticket : Ticket) (traceId : Nat) (confidence : ℚ) : AuditEvent :=
  { ticketId := ticket.id, traceId := traceId,
    action := AuditAction.auto_closed,
    description := "Auto-closed with high confidence",
    metaConfidence := some confidence }

/-- The closing summary audit document of a successful run. -/
def summaryEvent (ticket : Ticket) (traceId : Nat) (confidence : ℚ)
    (category : Category) (articlesFound : Nat) (shouldAutoClose : Bool) : AuditEvent :=
  { ticketId := ticket.id, traceId := traceId,
    action := AuditAction.reply_drafted,
    description := "AI triage process completed",
    metaConfidence := some confidence,
    metaCategory := some category,
    metaArticlesFound := some articlesFound,
    metaAutoClosed := some shouldAutoClose }

/-- The audit document logged by the `catch` block of `processTicket`. -/
def failedEvent (ticket : Ticket) (traceId : Nat) (msg : String) : AuditEvent :=
  { ticketId := ticket.id, traceId := traceId,
    action := AuditAction.triage_failed,
    description := "AI triage failed: " ++ msg,
    metaError := some msg }

/-- `Article.searchByKeywords(keywords, {status, category?, limit})`:
filter by status, by category when given, and by the abstract full-text
relevance predicate `tmatch` when the query is non-blank (the source
adds the `$text` filter only `if (keywords && keywords.trim())`); cap
at `limit`.  Relevance ordering is the collaborator capability, so the
store order stands in for the ranked order. -/
def searchByKeywords (tmatch : Article → Bool) (keywords : String)
    (category : Option Category) (limit : Nat) (articles : List Article) :
    List Article :=
  let base := articles.filter (fun a =>
    a.status == AStatus.published
    && (match category with
        | none => true
        | some c => a.category == c)
    && (if keywords.toList.all Char.isWhitespace then true else tmatch a))
  base.take limit

/-- The two-tier query of `retrieveRelevantArticles`: primary
category-scoped search capped at 5, unscoped fallback capped at 3 when
the primary search comes back empty. -/
def twoTierSearch (tmatch : Article → Bool) (articles : List Article)
    (ticket : Ticket) (category : Category) : List Article :=
  let query := ticket.title ++ " " ++ ticket.description
  let found := searchByKeywords tmatch query (some category) 5 articles
  if found.length = 0 then searchByKeywords tmatch query none 3 articles
  else found

/-- `retrieveRelevantArticles(ticket, category, traceId)`: the two-tier
search followed by the `articles_retrieved` audit event.  `fault`
injects a rejected search promise, in which case nothing is logged (the
source throws before reaching `logAction`). -/
def retrieveRelevantArticles (tmatch : Article → Bool) (fault : Option String)
    (db : Db) (ticket : Ticket) (category : Category) (traceId : Nat) :
    Except String (List Article × Db) :=
  match fault with
  | some e => Except.error e
  | none =>
    let articles := twoTierSearch tmatch db.articles ticket category
    let db := logAction db (retrievedEvent ticket traceId category articles)
    Except.ok (articles, db)

/-- `AgentSuggestion.create`: rejected when a suggestion for the same
ticket already exists (the `unique: true` index on `ticketId`), or when
the injected DB fault fires; otherwise the document is inserted. -/
def createSuggestion (fault : Option String) (db : Db) (s : Suggestion) :
    Except String (Suggestion × Db) :=
  if db.suggestions.any (fun x => x.ticketId == s.ticketId) then
    Except.error "E11000 duplicate key: ticketId"
  else
    match fault with
    | some e => Except.error e
    | none => Except.ok (s, { db with suggestions := db.suggestions ++ [s] })

/-- `classifyCategory(ticket, traceId)` in stub mode: the heuristic
classifier; `fault` injects a runtime failure of the awaited step. -/
def classifyCategory (fault : Option String) (ticket : Ticket) :
    Except String CatResult :=
  match fault with
  | some e => Except.error e
  | none => Except.ok (stubClassifyCategory ticket)

/-- `generateDraftReply(ticket, articles, categoryResult, traceId)` in
stub mode, with an injected runtime failure. -/
def generateDraftReply (fault : Option String) (ticket : Ticket)
    (articles : List Article) (categoryResult : CatResult) :
    Except String DraftResult :=
  match fault with
  | some e => Except.error e
  | none => Except.ok (stubGenerateDraftReply ticket articles categoryResult)

/-- The value `processTicket` returns to its caller. -/
structure TriageResult where
  suggestion : Suggestion
  shouldAutoClose : Bool
  traceId : Nat
deriving DecidableEq, Repr

/-- The body of the `try` block of `processTicket`: start-of-triage
audit event, classify, retrieve, draft, aggregate, persist the
suggestion, auto-close decision and bookkeeping, final summary event.
An error carries the Db as of the failure point (side effects performed
before a JS throw persist). -/
def processTicketTry (tmatch : Article → Bool) (f : Faults) (cfg : Config)
    (db : Db) (ticket : Ticket) (traceId : Nat) :
    Except (String × Db) (TriageResult × Db) :=
  let db := logAction db (startEvent ticket traceId)
  match classifyCategory f.classify ticket with
  | Except.error e => Except.error (e, db)
  | Except.ok categoryResult =>
    match retrieveRelevantArticles tmatch f.retrieve db ticket categoryResult.category traceId with
    | Except.error e => Except.error (e, db)
    | Except.ok (articles, db) =>
      match generateDraftReply f.draft ticket articles categoryResult with
      | Except.error e => Except.error (e, db)
      | Except.ok draftResult =>
        let confidence := calculateOverallConfidence categoryResult draftResult articles
        match createSuggestion f.createDb db
          { ticketId := ticket.id, traceId := traceId,
            predictedCategory := categoryResult.category,
            categoryConfidence := categoryResult.confidence,
            articleIds := articles.map (fun a => a.id),
            draftReply := draftResult.reply,
            confidence := confidence,
            autoClosed := false,
            model := "stub" } with
        | Except.error e => Except.error (e, db)
        | Except.ok (suggestion, db) =>
          let shouldAutoClose :=
            cfg.autoCloseEnabled && decide (cfg.confidenceThreshold ≤ confidence)
          let (suggestion, db) :=
            if shouldAutoClose then
              let suggestion := { suggestion with autoClosed := true }
              let db := { db with suggestions :=
                db.suggestions.map (fun s =>
                  if s.ticketId == ticket.id then suggestion else s) }
              let db := logAction db (autoClosedEvent ticket traceId confidence)
              (suggestion, db)
            else (suggestion, db)
          let db := logAction db
            (summaryEvent ticket traceId confidence categoryResult.category
              articles.length shouldAutoClose)
          Except.ok
            ({ suggestion := suggestion, shouldAutoClose := shouldAutoClose,
               traceId := traceId }, db)

/-- `getStubResult(ticket, traceId)`: the fallback path — heuristic
classification, best-effort retrieval, heuristic draft, aggregate
confidence, persist, and return with `shouldAutoClose: false`.  The
source has no `try`/`catch` here, so a failure of either DB call
propagates to the caller. -/
def getStubResult (tmatch : Article → Bool) (f : Faults) (db : Db)
    (ticket : Ticket) (traceId : Nat) :
    Except (String × Db) (TriageResult × Db) :=
  let categoryResult := stubClassifyCategory ticket
  match retrieveRelevantArticles tmatch f.stubRetrieve db ticket categoryResult.category traceId with
  | Except.error e => Except.error (e, db)
  | Except.ok (articles, db) =>
    let draftResult := stubGenerateDraftReply ticket articles categoryResult
    let confidence := calculateOverallConfidence categoryResult draftResult articles
    match createSuggestion f.stubCreateDb db
      { ticketId := ticket.id, traceId := traceId,
        predictedCategory := categoryResult.category,
        categoryConfidence := categoryResult.confidence,
        articleIds := articles.map (fun a => a.id),
        draftReply := draftResult.reply,
        confidence := confidence,
        autoClosed := false,
        model := "stub" } with
    | Except.error e => Except.error (e, db)
    | Except.ok (suggestion, db) =>
      Except.ok
        ({ suggestion := suggestion, shouldAutoClose := false,
           traceId := traceId }, db)

/-- `processTicket(ticket)`: run the `try` body; on any error, log a
`triage_failed` audit event and fall back to `getStubResult`.  The
trace identifier (a UUID in the source) is supplied as the oracle
`traceId`.  An overall `Except.error` models an exception escaping
`processTicket` (a rejected promise surfaced to the caller). -/
def processTicket (tmatch : Article → Bool) (f : Faults) (cfg : Config)
    (db : Db) (ticket : Ticket) (traceId : Nat) :
    Except (String × Db) (TriageResult × Db) :=
  match processTicketTry tmatch f cfg db ticket traceId with
  | Except.ok r => Except.ok r
  | Except.error (msg, db) =>
    let db := logAction db (failedEvent ticket traceId msg)
    getStubResult tmatch f db ticket traceId

/-- The article list a fault-free stub run retrieves for a ticket:
category-scoped search capped at 5, unscoped fallback capped at 3. -/
def runArticles (tmatch : Article → Bool) (db : Db) (ticket : Ticket) :
    List Article :=
  twoTierSearch tmatch db.articles ticket (stubClassifyCategory ticket).category

/-- The aggregate confidence a fault-free stub run computes for a
ticket. -/
def runConfidence (tmatch : Article → Bool) (db : Db) (ticket : Ticket) : ℚ :=
  calculateOverallConfidence (stubClassifyCategory ticket)
    (stubGenerateDraftReply ticket (runArticles tmatch db ticket)
      (stubClassifyCategory ticket))
    (runArticles tmatch db ticket)

/-- A relevance oracle under which every article matches the query. -/
def matchAll : Article → Bool := fun _ => true

/-- A concrete billing ticket (the spec example). -/
def sampleTicket : Ticket :=
  { id := 1, title := "Invoice question",
    description := "question about my monthly subscription bill and payment" }

/-- A concrete published billing article. -/
def sampleArticle : Article :=
  { id := 10, title := "How billing works", body := "Everything about bills.",
    category := Category.billing, status := AStatus.published }

/-- A store with one published article and no suggestions. -/
def sampleDb : Db :=
  { articles := [sampleArticle], suggestions := [], audit := [] }

/-- A config with auto-close disabled. -/
def sampleConfig : Config :=
  { autoCloseEnabled := false, confidenceThreshold := 1 }

/-- A pre-existing suggestion for `sampleTicket`. -/
def sampleSuggestion : Suggestion :=
  { ticketId := 1, traceId := 0, predictedCategory := Category.billing,
    categoryConfidence := 8/10, articleIds := [10], draftReply := "existing draft",
    confidence := 1/2, autoClosed := false, model := "stub" }

/-- A store in which `sampleTicket` already has a suggestion. -/
def dupDb : Db :=
  { articles := [sampleArticle], suggestions := [sampleSuggestion], audit := [] }

/-- C3: the heuristic classifier case-folds the combined text, scores
billing, tech, shipping by keyword-substring counts, returns the
strictly best category (earlier category wins ties, all-zero falls to
`other`), with confidence 8/10 exactly when the winning score is
positive and 1/2 otherwise; in particular billing-only text classifies
as billing with confidence 8/10, and keyword-free text as other with
confidence 1/2. -/
theorem classifier_keyword_scoring (t : Ticket) :
    ((stubClassifyCategory t).category =
      (if keywordScore (classifierText t) shippingKeywords >
            keywordScore (classifierText t) billingKeywords
          ∧ keywordScore (classifierText t) shippingKeywords >
            keywordScore (classifierText t) techKeywords
        then Category.shipping
        else if keywordScore (classifierText t) techKeywords >
            keywordScore (classifierText t) billingKeywords
        then Category.tech
        else if keywordScore (classifierText t) billingKeywords > 0
        then Category.billing
        else Category.other))
    ∧ ((stubClassifyCategory t).confidence =
        if keywordScore (classifierText t) billingKeywords > 0
          ∨ keywordScore (classifierText t) techKeywords > 0
          ∨ keywordScore (classifierText t) shippingKeywords > 0
        then 8/10 else 1/2)
    ∧ (1 ≤ keywordScore (classifierText t) billingKeywords →
        keywordScore (classifierText t) techKeywords = 0 →
        keywordScore (classifierText t) shippingKeywords = 0 →
        (stubClassifyCategory t).category = Category.billing ∧
          (stubClassifyCategory t).confidence = 8/10)
    ∧ (keywordScore (classifierText t) billingKeywords = 0 →
        keywordScore (classifierText t) techKeywords = 0 →
        keywordScore (classifierText t) shippingKeywords = 0 →
        (stubClassifyCategory t).category = Category.other ∧
          (stubClassifyCategory t).confidence = 1/2) := by
  have hcat : (stubClassifyCategory t).category =
      (if keywordScore (classifierText t) shippingKeywords >
            keywordScore (classifierText t) billingKeywords
          ∧ keywordScore (classifierText t) shippingKeywords >
            keywordScore (classifierText t) techKeywords
        then Category.shipping
        else if keywordScore (classifierText t) techKeywords >
            keywordScore (classifierText t) billingKeywords
        then Category.tech
        else if keywordScore (classifierText t) billingKeywords > 0
        then Category.billing
        else Category.other) := by
    simp only [stubClassifyCategory, keywordTable, List.foldl_cons, List.foldl_nil]
    split_ifs <;> simp_all <;> omega
  have hconf : (stubClassifyCategory t).confidence =
      (if keywordScore (classifierText t) billingKeywords > 0
          ∨ keywordScore (classifierText t) techKeywords > 0
          ∨ keywordScore (classifierText t) shippingKeywords > 0
        then (8/10 : ℚ) else 1/2) := by
    simp only [stubClassifyCategory, keywordTable, List.foldl_cons, List.foldl_nil]
    split_ifs <;> simp_all
  refine ⟨hcat, hconf, ?_, ?_⟩
  · intro h1 h2 h3
    rw [hcat, hconf]
    constructor
    · rw [if_neg (by omega), if_neg (by omega), if_pos (by omega)]
    · rw [if_pos (by omega)]
  · intro h1 h2 h3
    rw [hcat, hconf]
    constructor
    · rw [if_neg (by omega), if_neg (by omega), if_neg (by omega)]
    · rw [if_neg (by omega)]

/-- C3 witness: the billing example from the spec. -/
theorem classifier_keyword_scoring_witness :
    (stubClassifyCategory
      { id := 1, title := "Invoice question",
        description := "question about my monthly subscription bill and payment" }).category
        = Category.billing ∧
    (stubClassifyCategory
      { id := 1, title := "Invoice question",
        description := "question about my monthly subscription bill and payment" }).confidence
        = 8/10 :=
  (classifier_keyword_scoring
    { id := 1, title := "Invoice question",
      description := "question about my monthly subscription bill and payment" }).2.2.1
    (by decide) (by decide) (by decide)

/-- C4: the aggregate confidence is the clamped weighted sum
40% category confidence + 30% article yield (cap 3) + 30% reply length
(cap 500); with category confidence 8/10, at least 3 articles and a
reply of at least 500 characters it equals 92/100. -/
theorem confidence_formula (categoryResult : CatResult)
    (draftResult : DraftResult) (articles : List Article) :
    calculateOverallConfidence categoryResult draftResult articles =
      min (categoryResult.confidence * (4/10)
        + min ((articles.length : ℚ) / 3) 1 * (3/10)
        + min ((draftResult.reply.length : ℚ) / 500) 1 * (3/10)) 1
    ∧ (categoryResult.confidence = 8/10 → 3 ≤ articles.length →
        500 ≤ draftResult.reply.length →
        calculateOverallConfidence categoryResult draftResult articles = 92/100) := by
  constructor
  · rfl
  · intro h1 h2 h3
    have hc3 : (3 : ℚ) ≤ (articles.length : ℚ) := by exact_mod_cast h2
    have hc500 : (500 : ℚ) ≤ (draftResult.reply.length : ℚ) := by exact_mod_cast h3
    have ha : min ((articles.length : ℚ) / 3) 1 = 1 := by
      rw [min_eq_right]
      rw [le_div_iff₀ (by norm_num : (0:ℚ) < 3)]
      linarith
    have hr : min ((draftResult.reply.length : ℚ) / 500) 1 = 1 := by
      rw [min_eq_right]
      rw [le_div_iff₀ (by norm_num : (0:ℚ) < 500)]
      linarith
    show min (categoryResult.confidence * (4/10)
        + min ((articles.length : ℚ) / 3) 1 * (3/10)
        + min ((draftResult.reply.length : ℚ) / 500) 1 * (3/10)) 1 = 92/100
    rw [h1, ha, hr]
    norm_num [min_def]

set_option maxRecDepth 4000 in
/-- C4 witness: three published articles and a 500-character reply. -/
theorem confidence_formula_witness :
    calculateOverallConfidence
      { category := Category.billing, confidence := 8/10, reasoning := "" }
      { reply := String.mk (List.replicate 500 'a'), tokensUsed := 0 }
      [ { id := 1, title := "a1", body := "b", category := Category.billing, status := AStatus.published },
        { id := 2, title := "a2", body := "b", category := Category.billing, status := AStatus.published },
        { id := 3, title := "a3", body := "b", category := Category.billing, status := AStatus.published } ]
      = 92/100 :=
  (confidence_formula
    { category := Category.billing, confidence := 8/10, reasoning := "" }
    { reply := String.mk (List.replicate 500 'a'), tokensUsed := 0 }
    [ { id := 1, title := "a1", body := "b", category := Category.billing, status := AStatus.published },
      { id := 2, title := "a2", body := "b", category := Category.billing, status := AStatus.published },
      { id := 3, title := "a3", body := "b", category := Category.billing, status := AStatus.published } ]).2
    rfl (by decide) (by decide)

/-- C5 counterexample: for a category confidence outside [0,1] (here
-1, a value no classifier produces but which the claim's "any value of
categoryResult.confidence" ranges over), the aggregate confidence is
negative — the function clamps only from above. -/
theorem confidence_bounds_counterexample :
    ¬ (0 ≤ calculateOverallConfidence
          { category := Category.other, confidence := -1, reasoning := "" }
          { reply := "", tokensUsed := 0 } []) := by
  intro h
  have hv : calculateOverallConfidence
      { category := Category.other, confidence := -1, reasoning := "" }
      { reply := "", tokensUsed := 0 } [] = -(2/5) := by
    show min ((-1) * (4/10) + min (((0:Nat) : ℚ) / 3) 1 * (3/10)
      + min (((0:Nat) : ℚ) / 500) 1 * (3/10)) 1 = -(2/5)
    norm_num [min_def]
  rw [hv] at h
  norm_num at h

/-- C5 (amended): for every nonnegative category confidence — which
covers every value the classifier can produce — and any article list
and draft reply, the aggregate confidence lies within [0,1]. -/
theorem confidence_bounds (categoryResult : CatResult)
    (draftResult : DraftResult) (articles : List Article)
    (h : 0 ≤ categoryResult.confidence) :
    0 ≤ calculateOverallConfidence categoryResult draftResult articles ∧
      calculateOverallConfidence categoryResult draftResult articles ≤ 1 := by
  constructor
  · show 0 ≤ min (categoryResult.confidence * (4/10)
        + min ((articles.length : ℚ) / 3) 1 * (3/10)
        + min ((draftResult.reply.length : ℚ) / 500) 1 * (3/10)) 1
    refine le_min ?_ (by norm_num)
    have t1 : 0 ≤ categoryResult.confidence * (4/10) :=
      mul_nonneg h (by norm_num)
    have t2 : 0 ≤ min ((articles.length : ℚ) / 3) 1 * (3/10) :=
      mul_nonneg (le_min (by positivity) (by norm_num)) (by norm_num)
    have t3 : 0 ≤ min ((draftResult.reply.length : ℚ) / 500) 1 * (3/10) :=
      mul_nonneg (le_min (by positivity) (by norm_num)) (by norm_num)
    linarith
  · exact min_le_right _ _

/-- C5 witness: the bounds at a concrete keyword-free input. -/
theorem confidence_bounds_witness :
    0 ≤ calculateOverallConfidence
        { category := Category.other, confidence := 1/2, reasoning := "" }
        { reply := "", tokensUsed := 0 } [] ∧
      calculateOverallConfidence
        { category := Category.other, confidence := 1/2, reasoning := "" }
        { reply := "", tokensUsed := 0 } [] ≤ 1 :=
  confidence_bounds
    { category := Category.other, confidence := 1/2, reasoning := "" }
    { reply := "", tokensUsed := 0 } [] (by norm_num)

/-- `searchByKeywords` returns at most `limit` articles. -/
theorem searchByKeywords_length_le (tmatch : Article → Bool) (keywords : String)
    (category : Option Category) (limit : Nat) (articles : List Article) :
    (searchByKeywords tmatch keywords category limit articles).length ≤ limit := by
  simp only [searchByKeywords, List.length_take]
  omega

/-- `searchByKeywords` returns only published articles. -/
theorem searchByKeywords_published (tmatch : Article → Bool) (keywords : String)
    (category : Option Category) (limit : Nat) (articles : List Article) :
    ∀ a ∈ searchByKeywords tmatch keywords category limit articles,
      a.status = AStatus.published := by
  intro a ha
  simp only [searchByKeywords] at ha
  have ha2 := List.mem_of_mem_take ha
  rw [List.mem_filter] at ha2
  obtain ⟨-, hp⟩ := ha2
  simp only [Bool.and_eq_true, beq_iff_eq] at hp
  exact hp.1.1

/-- C6: the retriever first issues the category-scoped published
search capped at 5; exactly when that is empty it issues the unscoped
search capped at 3, and returns the primary result otherwise; the
result never exceeds 5 articles, is empty only when both searches are
empty, and contains only published articles. -/
theorem retrieval_two_tier (tmatch : Article → Bool) (db : Db) (ticket : Ticket)
    (category : Category) (traceId : Nat) :
    ∃ res db2,
      retrieveRelevantArticles tmatch none db ticket category traceId
        = Except.ok (res, db2)
      ∧ res = (if (searchByKeywords tmatch (ticket.title ++ " " ++ ticket.description)
                    (some category) 5 db.articles).length = 0
          then searchByKeywords tmatch (ticket.title ++ " " ++ ticket.description)
                none 3 db.articles
          else searchByKeywords tmatch (ticket.title ++ " " ++ ticket.description)
                (some category) 5 db.articles)
      ∧ res.length ≤ 5
      ∧ (res = [] ↔
          (searchByKeywords tmatch (ticket.title ++ " " ++ ticket.description)
              (some category) 5 db.articles = []
            ∧ searchByKeywords tmatch (ticket.title ++ " " ++ ticket.description)
              none 3 db.articles = []))
      ∧ (∀ a ∈ res, a.status = AStatus.published) := by
  refine ⟨_, _, rfl, rfl, ?_, ?_, ?_⟩
  all_goals simp only [twoTierSearch]
  · split_ifs
    · exact le_trans (searchByKeywords_length_le _ _ _ _ _) (by norm_num)
    · exact searchByKeywords_length_le _ _ _ _ _
  · split_ifs with h
    · have hp : searchByKeywords tmatch (ticket.title ++ " " ++ ticket.description)
          (some category) 5 db.articles = [] := List.length_eq_zero.mp h
      simp [hp]
    · have hp : searchByKeywords tmatch (ticket.title ++ " " ++ ticket.description)
          (some category) 5 db.articles ≠ [] := by
        intro hc
        rw [hc] at h
        simp at h
      constructor
      · intro hc
        exact absurd hc hp
      · rintro ⟨hc, -⟩
        exact absurd hc hp
  · split_ifs
    · exact searchByKeywords_published _ _ _ _ _
    · exact searchByKeywords_published _ _ _ _ _

/-- Replacing the suggestion for a ticket that is absent from a list
leaves the list unchanged. -/
theorem map_noop (l : List Suggestion) (tid : Nat) (x : Suggestion)
    (h : l.any (fun s => s.ticketId == tid) = false) :
    l.map (fun s => if s.ticketId == tid then x else s) = l := by
  rw [List.any_eq_false] at h
  have : l.map (fun s => if s.ticketId == tid then x else s) = l.map id := by
    apply List.map_congr_left
    intro a ha
    simp [h a ha]
  simpa using this

/-- Shape of a fault-free run on a ticket with no existing suggestion:
the try body succeeds, the suggestion is appended, and the audit log
grows by exactly the start, retrieval, optional auto-close and summary
events. -/
theorem processTicket_clean_run (tmatch : Article → Bool) (cfg : Config) (db : Db)
    (ticket : Ticket) (traceId : Nat)
    (hany : db.suggestions.any (fun x => x.ticketId == ticket.id) = false) :
    ∃ r db2,
      processTicket tmatch Faults.clean cfg db ticket traceId = Except.ok (r, db2)
      ∧ r.traceId = traceId
      ∧ r.shouldAutoClose
          = (cfg.autoCloseEnabled
              && decide (cfg.confidenceThreshold ≤ runConfidence tmatch db ticket))
      ∧ r.suggestion.ticketId = ticket.id
      ∧ r.suggestion.draftReply
          = (stubGenerateDraftReply ticket (runArticles tmatch db ticket)
              (stubClassifyCategory ticket)).reply
      ∧ db2.suggestions = db.suggestions ++ [r.suggestion]
      ∧ db2.audit = db.audit
          ++ [startEvent ticket traceId,
              retrievedEvent ticket traceId (stubClassifyCategory ticket).category
                (runArticles tmatch db ticket)]
          ++ (if r.shouldAutoClose then
                [autoClosedEvent ticket traceId (runConfidence tmatch db ticket)]
              else [])
          ++ [summaryEvent ticket traceId (runConfidence tmatch db ticket)
                (stubClassifyCategory ticket).category
                (runArticles tmatch db ticket).length r.shouldAutoClose] := by
  simp only [processTicket, processTicketTry, classifyCategory, retrieveRelevantArticles,
    generateDraftReply, createSuggestion, logAction, Faults.clean, hany,
    Bool.false_eq_true, if_false, runArticles, runConfidence]
  split_ifs with hb
  · refine ⟨_, _, rfl, rfl, rfl, rfl, rfl, ?_, ?_⟩
    · rw [List.map_append, map_noop _ _ _ hany]
      simp
    · simp [hb, List.append_assoc]
  · refine ⟨_, _, rfl, rfl, rfl, rfl, rfl, rfl, ?_⟩
    simp [hb, List.append_assoc]

/-- When the try body of `processTicket` fails, the failure state has
the same article store and the same suggestions as the initial state
(only audit events were appended before the throw). -/
theorem processTicketTry_error_state (tmatch : Article → Bool) (f : Faults)
    (cfg : Config) (db : Db) (ticket : Ticket) (traceId : Nat) (msg : String) (db1 : Db)
    (h : processTicketTry tmatch f cfg db ticket traceId = Except.error (msg, db1)) :
    db1.articles = db.articles ∧ db1.suggestions = db.suggestions := by
  obtain ⟨fc, fr, fd, fcd, fsr, fsc⟩ := f
  simp only [processTicketTry, classifyCategory, retrieveRelevantArticles,
    generateDraftReply, createSuggestion, logAction] at h
  cases fc <;> cases fr <;> cases fd <;> cases fcd <;>
    all_goals (repeat (first | split at h | simp_all))
  all_goals (first
    | (obtain ⟨-, h2⟩ := h
       subst h2
       exact ⟨rfl, rfl⟩)
    | (subst db1
       exact ⟨rfl, rfl⟩)
    | rfl
    | exact ⟨rfl, rfl⟩
    | simp_all)

/-- The fallback path succeeds whenever its own retrieval and
persistence do not fail and the ticket has no suggestion yet, and it
always answers `shouldAutoClose = false`. -/
theorem getStubResult_clean (tmatch : Article → Bool) (f : Faults) (db0 : Db)
    (ticket : Ticket) (traceId : Nat)
    (hsr : f.stubRetrieve = none) (hsc : f.stubCreateDb = none)
    (hany : db0.suggestions.any (fun x => x.ticketId == ticket.id) = false) :
    ∃ r db2, getStubResult tmatch f db0 ticket traceId = Except.ok (r, db2)
      ∧ r.shouldAutoClose = false
      ∧ r.traceId = traceId
      ∧ db2.suggestions = db0.suggestions ++ [r.suggestion]
      ∧ db2.audit = db0.audit
          ++ [retrievedEvent ticket traceId (stubClassifyCategory ticket).category
                (twoTierSearch tmatch db0.articles ticket (stubClassifyCategory ticket).category)] := by
  simp only [getStubResult, retrieveRelevantArticles, createSuggestion, logAction,
    hsr, hsc, hany, Bool.false_eq_true, if_false]
  exact ⟨_, _, rfl, rfl, rfl, rfl, rfl⟩

/-- Whatever happens inside the fallback path, a result it returns
carries `shouldAutoClose = false`. -/
theorem getStubResult_auto_close_false (tmatch : Article → Bool) (f : Faults)
    (db0 : Db) (ticket : Ticket) (traceId : Nat) (r : TriageResult) (db2 : Db)
    (h : getStubResult tmatch f db0 ticket traceId = Except.ok (r, db2)) :
    r.shouldAutoClose = false := by
  simp only [getStubResult, retrieveRelevantArticles, createSuggestion, logAction] at h
  repeat (first | split at h | simp_all)
  obtain ⟨h1, -⟩ := h
  rw [← h1]

/-- C1 (amended): if any step inside the try block of `processTicket`
raises an error, the error is caught once at the orchestrator boundary
and a `triage_failed` audit event is recorded; provided the fallback
path's own retrieval and persistence succeed — in particular when the
ticket has no suggestion yet — `processTicket` still returns a complete
result built by the stub fallback path, with `shouldAutoClose = false`
and the run's traceId.  (When the fallback persistence itself fails,
e.g. a suggestion already exists, the exception escapes: see the
counterexample.) -/
theorem triage_failure_recovery (tmatch : Article → Bool) (f : Faults) (cfg : Config)
    (db : Db) (ticket : Ticket) (traceId : Nat)
    (hsr : f.stubRetrieve = none) (hsc : f.stubCreateDb = none)
    (hfresh : db.suggestions.any (fun x => x.ticketId == ticket.id) = false) :
    (∃ r db2, processTicket tmatch f cfg db ticket traceId = Except.ok (r, db2))
    ∧ (∀ msg db1,
        processTicketTry tmatch f cfg db ticket traceId = Except.error (msg, db1) →
        ∃ r db2, processTicket tmatch f cfg db ticket traceId = Except.ok (r, db2)
          ∧ r.shouldAutoClose = false
          ∧ r.traceId = traceId
          ∧ failedEvent ticket traceId msg ∈ db2.audit) := by
  have main : ∀ msg db1,
      processTicketTry tmatch f cfg db ticket traceId = Except.error (msg, db1) →
      ∃ r db2, processTicket tmatch f cfg db ticket traceId = Except.ok (r, db2)
        ∧ r.shouldAutoClose = false
        ∧ r.traceId = traceId
        ∧ failedEvent ticket traceId msg ∈ db2.audit := by
    intro msg db1 herr
    obtain ⟨hart, hsug⟩ := processTicketTry_error_state _ _ _ _ _ _ _ _ herr
    have hany1 : (logAction db1 (failedEvent ticket traceId msg)).suggestions.any
        (fun x => x.ticketId == ticket.id) = false := by
      simpa [logAction, hsug] using hfresh
    obtain ⟨r, db2, hok, hsa, htr, hsug2, haud⟩ :=
      getStubResult_clean tmatch f (logAction db1 (failedEvent ticket traceId msg))
        ticket traceId hsr hsc hany1
    refine ⟨r, db2, ?_, hsa, htr, ?_⟩
    · simp only [processTicket, herr]
      exact hok
    · rw [haud]
      simp [logAction]
  constructor
  · cases htry : processTicketTry tmatch f cfg db ticket traceId with
    | ok p =>
      obtain ⟨r0, db0⟩ := p
      exact ⟨r0, db0, by simp only [processTicket, htry]⟩
    | error q =>
      obtain ⟨msg, db1⟩ := q
      obtain ⟨r, db2, hok, -⟩ := main msg db1 htry
      exact ⟨r, db2, hok⟩
  · exact main

/-- C1 witness: a failing classification step on a fresh ticket is
recovered into a stub result with the `triage_failed` event logged. -/
theorem triage_failure_recovery_witness :
    ∃ r db2,
      processTicket matchAll { classify := some "engine down" } sampleConfig sampleDb
          sampleTicket 7 = Except.ok (r, db2)
        ∧ r.shouldAutoClose = false
        ∧ r.traceId = 7
        ∧ failedEvent sampleTicket 7 "engine down" ∈ db2.audit :=
  (triage_failure_recovery matchAll { classify := some "engine down" } sampleConfig
      sampleDb sampleTicket 7 rfl rfl (by decide)).2 "engine down"
    (logAction sampleDb (startEvent sampleTicket 7)) rfl

/-- C1 counterexample: when the failing step is the suggestion
persistence itself (a suggestion already exists for the ticket), the
catch block's fallback persistence fails again and the exception
escapes `processTicket` — the pipeline does not return a result, though
the `triage_failed` event was recorded. -/
theorem triage_failure_counterexample :
    ∃ msg db2,
      processTicket matchAll Faults.clean sampleConfig dupDb sampleTicket 7
        = Except.error (msg, db2)
      ∧ (∃ e ∈ db2.audit, e.action = AuditAction.triage_failed) := by
  refine ⟨_, _, rfl, ?_⟩
  decide

/-- C2: on a fault-free successful run the returned `shouldAutoClose`
is true iff `config.autoCloseEnabled` is true and the aggregate
confidence reaches `config.confidenceThreshold`; on the `getStubResult`
fallback path it is false regardless of config and confidence. -/
theorem auto_close_gating (tmatch : Article → Bool) (cfg : Config) (db : Db)
    (ticket : Ticket) (traceId : Nat)
    (hfresh : db.suggestions.any (fun x => x.ticketId == ticket.id) = false) :
    (∃ r db2, processTicket tmatch Faults.clean cfg db ticket traceId = Except.ok (r, db2)
      ∧ (r.shouldAutoClose = true ↔
          (cfg.autoCloseEnabled = true
            ∧ cfg.confidenceThreshold ≤ runConfidence tmatch db ticket)))
    ∧ (∀ f db0 r db2,
        getStubResult tmatch f db0 ticket traceId = Except.ok (r, db2) →
          r.shouldAutoClose = false) := by
  constructor
  · obtain ⟨r, db2, hok, htr, hsa, -, -, -, -⟩ :=
      processTicket_clean_run tmatch cfg db ticket traceId hfresh
    refine ⟨r, db2, hok, ?_⟩
    rw [hsa]
    simp [Bool.and_eq_true, decide_eq_true_eq]
  · intro f db0 r db2 h
    exact getStubResult_auto_close_false tmatch f db0 ticket traceId r db2 h

/-- C2 witness: the gating at a concrete fresh ticket and store. -/
theorem auto_close_gating_witness :
    (∃ r db2,
      processTicket matchAll Faults.clean sampleConfig sampleDb sampleTicket 7
          = Except.ok (r, db2)
        ∧ (r.shouldAutoClose = true ↔
            (sampleConfig.autoCloseEnabled = true
              ∧ sampleConfig.confidenceThreshold
                  ≤ runConfidence matchAll sampleDb sampleTicket)))
    ∧ (∀ f db0 r db2,
        getStubResult matchAll f db0 sampleTicket 7 = Except.ok (r, db2) →
          r.shouldAutoClose = false) :=
  auto_close_gating matchAll sampleConfig sampleDb sampleTicket 7 (by decide)

/-- With any fault assignment, a run on a ticket that already has a
suggestion fails inside the try body without touching the suggestion
or article collections. -/
theorem processTicketTry_dup_error (tmatch : Article → Bool) (f : Faults) (cfg : Config)
    (db : Db) (ticket : Ticket) (traceId : Nat)
    (hdup : db.suggestions.any (fun x => x.ticketId == ticket.id) = true) :
    ∃ msg db1, processTicketTry tmatch f cfg db ticket traceId = Except.error (msg, db1)
      ∧ db1.suggestions = db.suggestions ∧ db1.articles = db.articles := by
  obtain ⟨fc, fr, fd, fcd, fsr, fsc⟩ := f
  simp only [processTicketTry, classifyCategory, retrieveRelevantArticles,
    generateDraftReply, createSuggestion, logAction]
  cases fc <;> cases fr <;> cases fd <;> cases fcd <;>
    simp only [hdup, if_true] <;> exact ⟨_, _, rfl, rfl, rfl⟩

/-- The fallback path also fails on a ticket that already has a
suggestion, leaving the suggestion collection unchanged. -/
theorem getStubResult_dup_error (tmatch : Article → Bool) (f : Faults) (db0 : Db)
    (ticket : Ticket) (traceId : Nat)
    (hdup0 : db0.suggestions.any (fun x => x.ticketId == ticket.id) = true) :
    ∃ msg db2, getStubResult tmatch f db0 ticket traceId = Except.error (msg, db2)
      ∧ db2.suggestions = db0.suggestions := by
  obtain ⟨fc, fr, fd, fcd, fsr, fsc⟩ := f
  simp only [getStubResult, retrieveRelevantArticles, createSuggestion, logAction]
  cases fsr <;> simp only [hdup0, if_true] <;> exact ⟨_, _, rfl, rfl⟩

/-- C7: when a suggestion already exists for the ticket, a second
pipeline invocation — under any fault assignment — never persists a
second suggestion and never overwrites the existing one (the
suggestion collection is unchanged), and the conflict is surfaced to
the caller as an escaping rejection. -/
theorem suggestion_uniqueness (tmatch : Article → Bool) (f : Faults) (cfg : Config)
    (db : Db) (ticket : Ticket) (traceId : Nat)
    (hdup : db.suggestions.any (fun x => x.ticketId == ticket.id) = true) :
    ∃ msg db2, processTicket tmatch f cfg db ticket traceId = Except.error (msg, db2)
      ∧ db2.suggestions = db.suggestions := by
  obtain ⟨msg, db1, htry, hsug, hart⟩ :=
    processTicketTry_dup_error tmatch f cfg db ticket traceId hdup
  have hdup1 : (logAction db1 (failedEvent ticket traceId msg)).suggestions.any
      (fun x => x.ticketId == ticket.id) = true := by
    simpa [logAction, hsug] using hdup
  obtain ⟨msg2, db2, hstub, hsug2⟩ :=
    getStubResult_dup_error tmatch f (logAction db1 (failedEvent ticket traceId msg))
      ticket traceId hdup1
  refine ⟨msg2, db2, ?_, ?_⟩
  · simp only [processTicket, htry]
    exact hstub
  · rw [hsug2]
    simpa [logAction] using hsug

/-- C7 witness: a second run for a ticket whose suggestion exists is
rejected and the collection is untouched. -/
theorem suggestion_uniqueness_witness :
    ∃ msg db2,
      processTicket matchAll Faults.clean sampleConfig dupDb sampleTicket 7
        = Except.error (msg, db2)
      ∧ db2.suggestions = dupDb.suggestions :=
  suggestion_uniqueness matchAll Faults.clean sampleConfig dupDb sampleTicket 7 (by decide)

/-- C8: a successful run appends exactly the audit actions
`category_predicted`, `articles_retrieved`, `auto_closed` exactly when
the run auto-closes, and a closing `reply_drafted` summary — in that
order — and every appended event carries the run's traceId and
ticketId. -/
theorem audit_completeness (tmatch : Article → Bool) (cfg : Config) (db : Db)
    (ticket : Ticket) (traceId : Nat)
    (hfresh : db.suggestions.any (fun x => x.ticketId == ticket.id) = false) :
    ∃ r db2 es,
      processTicket tmatch Faults.clean cfg db ticket traceId = Except.ok (r, db2)
      ∧ r.traceId = traceId
      ∧ db2.audit = db.audit ++ es
      ∧ es.map (fun e => e.action)
          = [AuditAction.category_predicted, AuditAction.articles_retrieved]
            ++ (if r.shouldAutoClose then [AuditAction.auto_closed] else [])
            ++ [AuditAction.reply_drafted]
      ∧ (∀ e ∈ es, e.traceId = traceId ∧ e.ticketId = ticket.id) := by
  obtain ⟨r, db2, hok, htr, hsa, hticket, hdr, hsug, haud⟩ :=
    processTicket_clean_run tmatch cfg db ticket traceId hfresh
  refine ⟨r, db2,
    [startEvent ticket traceId,
     retrievedEvent ticket traceId (stubClassifyCategory ticket).category
       (runArticles tmatch db ticket)]
      ++ (if r.shouldAutoClose then
            [autoClosedEvent ticket traceId (runConfidence tmatch db ticket)]
          else [])
      ++ [summaryEvent ticket traceId (runConfidence tmatch db ticket)
            (stubClassifyCategory ticket).category
            (runArticles tmatch db ticket).length r.shouldAutoClose],
    hok, htr, ?_, ?_, ?_⟩
  · rw [haud]
    simp [List.append_assoc]
  · cases hb : r.shouldAutoClose <;>
      simp [hb, startEvent, retrievedEvent, autoClosedEvent, summaryEvent]
  · intro e he
    cases hb : r.shouldAutoClose <;> rw [hb] at he <;> simp at he
    · rcases he with rfl | rfl | rfl <;>
        simp [startEvent, retrievedEvent, autoClosedEvent, summaryEvent]
    · rcases he with rfl | rfl | rfl | rfl <;>
        simp [startEvent, retrievedEvent, autoClosedEvent, summaryEvent]

/-- C8 witness: the audit trail of a concrete successful run. -/
theorem audit_completeness_witness :
    ∃ r db2 es,
      processTicket matchAll Faults.clean sampleConfig sampleDb sampleTicket 7
        = Except.ok (r, db2)
      ∧ r.traceId = 7
      ∧ db2.audit = sampleDb.audit ++ es
      ∧ es.map (fun e => e.action)
          = [AuditAction.category_predicted, AuditAction.articles_retrieved]
            ++ (if r.shouldAutoClose then [AuditAction.auto_closed] else [])
            ++ [AuditAction.reply_drafted]
      ∧ (∀ e ∈ es, e.traceId = 7 ∧ e.ticketId = sampleTicket.id) :=
  audit_completeness matchAll sampleConfig sampleDb sampleTicket 7 (by decide)

/-- C9 counterexample: in a concrete successful run the (unique)
`category_predicted` audit event does not record the classification
outcome — its meta carries no category and its description is the
start-of-triage marker, even though the classifier predicts `billing`
for this ticket.  The event is emitted before the classifier is
invoked, not after it as the claim states. -/
theorem category_event_counterexample :
    ∃ r db2,
      processTicket matchAll Faults.clean sampleConfig sampleDb sampleTicket 7
        = Except.ok (r, db2)
      ∧ (stubClassifyCategory sampleTicket).category = Category.billing
      ∧ ∀ e ∈ db2.audit, e.action = AuditAction.category_predicted →
          (e.metaCategory = none ∧ e.description = "Starting AI triage process") := by
  refine ⟨_, _, rfl, by decide, ?_⟩
  decide

/-- C9 (amended): the orchestrator emits the `category_predicted`
audit event at the start of the run, before invoking the classifier —
the event records the ticket title, not the predicted category — and
it still precedes the `articles_retrieved` event; no later event of
the run reuses the `category_predicted` action. -/
theorem start_event_precedes_classification (tmatch : Article → Bool) (cfg : Config)
    (db : Db) (ticket : Ticket) (traceId : Nat)
    (hfresh : db.suggestions.any (fun x => x.ticketId == ticket.id) = false) :
    ∃ r db2 rest,
      processTicket tmatch Faults.clean cfg db ticket traceId = Except.ok (r, db2)
      ∧ db2.audit = db.audit ++ (startEvent ticket traceId :: rest)
      ∧ (startEvent ticket traceId).action = AuditAction.category_predicted
      ∧ (startEvent ticket traceId).metaCategory = none
      ∧ (startEvent ticket traceId).description = "Starting AI triage process"
      ∧ rest.head? = some (retrievedEvent ticket traceId
          (stubClassifyCategory ticket).category (runArticles tmatch db ticket))
      ∧ (∀ e ∈ rest, e.action ≠ AuditAction.category_predicted) := by
  obtain ⟨r, db2, hok, htr, hsa, hticket, hdr, hsug, haud⟩ :=
    processTicket_clean_run tmatch cfg db ticket traceId hfresh
  refine ⟨r, db2,
    retrievedEvent ticket traceId (stubClassifyCategory ticket).category
        (runArticles tmatch db ticket)
      :: ((if r.shouldAutoClose then
            [autoClosedEvent ticket traceId (runConfidence tmatch db ticket)]
          else [])
        ++ [summaryEvent ticket traceId (runConfidence tmatch db ticket)
              (stubClassifyCategory ticket).category
              (runArticles tmatch db ticket).length r.shouldAutoClose]),
    hok, ?_, rfl, rfl, rfl, rfl, ?_⟩
  · rw [haud]
    simp [List.append_assoc]
  · intro e he
    simp at he
    cases hb : r.shouldAutoClose <;> rw [hb] at he <;> simp at he
    · rcases he with rfl | rfl <;>
        simp [retrievedEvent, autoClosedEvent, summaryEvent]
    · rcases he with rfl | rfl | rfl <;>
        simp [retrievedEvent, autoClosedEvent, summaryEvent]

/-- C9 witness: the start event and its position in a concrete run. -/
theorem start_event_witness :
    ∃ r db2 rest,
      processTicket matchAll Faults.clean sampleConfig sampleDb sampleTicket 7
        = Except.ok (r, db2)
      ∧ db2.audit = sampleDb.audit ++ (startEvent sampleTicket 7 :: rest)
      ∧ (startEvent sampleTicket 7).action = AuditAction.category_predicted
      ∧ (startEvent sampleTicket 7).metaCategory = none
      ∧ (startEvent sampleTicket 7).description = "Starting AI triage process"
      ∧ rest.head? = some (retrievedEvent sampleTicket 7
          (stubClassifyCategory sampleTicket).category
          (runArticles matchAll sampleDb sampleTicket))
      ∧ (∀ e ∈ rest, e.action ≠ AuditAction.category_predicted) :=
  start_event_precedes_classification matchAll sampleConfig sampleDb sampleTicket 7
    (by decide)

/-- The rendering of a category name never exceeds 8 characters. -/
theorem toStr_length_le (c : Category) : c.toStr.length ≤ 8 := by
  cases c <;> decide

/-- Each numbered reference line of the stub draft adds at most 204
characters, for up to 5 articles with titles of at most 200
characters. -/
theorem enumFrom_fold_length (articles : List Article) (k : Nat) (r : String)
    (hat : ∀ a ∈ articles, a.title.length ≤ 200)
    (hk : k + articles.length ≤ 5) :
    ((List.enumFrom k articles).foldl
        (fun r p => r ++ toString (p.1 + 1) ++ ". " ++ p.2.title ++ "\n") r).length
      ≤ r.length + articles.length * 204 := by
  induction articles generalizing k r with
  | nil => simp
  | cons a l ih =>
    rw [List.enumFrom_cons]
    simp only [List.foldl_cons]
    have hlen : k + 1 < 6 := by simp at hk; omega
    have hn : (toString (k + 1)).length ≤ 1 := by
      have : ∀ n < 6, (toString n).length ≤ 1 := by decide
      exact this (k + 1) hlen
    have ht := hat a (List.mem_cons_self a l)
    have h1 := ih (k + 1) (r ++ toString (k + 1) ++ ". " ++ a.title ++ "\n")
      (fun x hx => hat x (List.mem_cons_of_mem _ hx)) (by simp at hk ⊢; omega)
    refine le_trans h1 ?_
    simp only [String.length_append, List.length_cons]
    have h2 : (". ").length = 2 := by decide
    have h3 : ("\n").length = 1 := by decide
    omega

/-- C10: for a ticket title of at most 200 characters and at most 5
articles, each with a title of at most 200 characters, the stub draft
reply is strictly shorter than 5000 characters — the maximum length of
the persisted `draftReply` field — so persisting a stub-mode
suggestion can never fail the length constraint. -/
theorem stub_reply_length (ticket : Ticket) (articles : List Article)
    (categoryResult : CatResult)
    (ht : ticket.title.length ≤ 200)
    (ha : articles.length ≤ 5)
    (hat : ∀ a ∈ articles, a.title.length ≤ 200) :
    (stubGenerateDraftReply ticket articles categoryResult).reply.length < 5000 := by
  have hg : ("Thank you for contacting us regarding \"").length ≤ 60 := by decide
  have hq : ("\".").length ≤ 2 := by decide
  have hh : ("\n\nBased on your query, I found some relevant information that might help:\n\n").length ≤ 100 := by decide
  have hp : ("\nPlease review these resources. If they don\x27t fully address your concern, our team will be happy to assist you further.").length ≤ 150 := by decide
  have hu : ("\n\nI understand you need help with this ").length ≤ 60 := by decide
  have hi : (" issue. Our team will review your request and get back to you shortly.").length ≤ 100 := by decide
  have hs : ("\n\nBest regards,\nResolvia Support Team").length ≤ 60 := by decide
  have hcat := toStr_length_le categoryResult.category
  simp only [stubGenerateDraftReply]
  split_ifs with hl
  · have hfold := enumFrom_fold_length articles 0
      ("Thank you for contacting us regarding \"" ++ ticket.title ++ "\"." ++
        "\n\nBased on your query, I found some relevant information that might help:\n\n")
      hat (by omega)
    have henum : articles.enum = List.enumFrom 0 articles := rfl
    simp only [henum, String.length_append] at hfold ⊢
    omega
  · simp only [String.length_append]
    omega

/-- C10 witness: the bound at a concrete ticket and article list. -/
theorem stub_reply_length_witness :
    (stubGenerateDraftReply sampleTicket [sampleArticle]
        (stubClassifyCategory sampleTicket)).reply.length < 5000 :=
  stub_reply_length sampleTicket [sampleArticle] (stubClassifyCategory sampleTicket)
    (by decide) (by decide) (by decide)
